import Mathlib

/-!
Shallow embedding of the Chemical Equipment Parameter Visualizer desktop
client (src/main.py) and proofs about its upload-and-render pipeline.

Conventions of the embedding:
* JSON values (the bodies that `requests` parses via `response.json()`)
  are modelled by `JValue`.  Python distinguishes JSON integers from JSON
  floating-point numbers; we keep that split (`jInt` / `jRat`), with
  floating-point numbers modelled as rationals.
* Exception *detail* strings produced by the Python runtime (e.g. the text
  of a `JSONDecodeError` or an `AttributeError`) are not determined by the
  source file; they are either carried as environment parameters or fixed
  as descriptive placeholder strings where no claim depends on them.
* Qt signal emissions are modelled as values appended to an ordered trace.
-/

/-- A parsed JSON value, as produced by Python's `response.json()`.
JSON floating-point numbers are modelled as rationals. -/
inductive JValue where
  | jNull : JValue
  | jBool (b : Bool) : JValue
  | jInt (n : Int) : JValue
  | jRat (q : ℚ) : JValue
  | jStr (s : String) : JValue
  | jArr (elems : List JValue) : JValue
  | jObj (fields : List (String × JValue)) : JValue

namespace JValue

/-- Whether the value is a Python `dict` (a JSON object); this is what
`isinstance(x, dict)` tests on a value obtained from `response.json()`. -/
def isDict : JValue → Bool
  | jObj _ => true
  | _ => false

/-- Python `repr` of a float, abstracted: the claims never inspect this
text, so the rational is printed directly. -/
def ratRepr (q : ℚ) : String := toString q

mutual

/-- Python `repr()` of a parsed-JSON value (string escaping corner cases
are not modelled; a string is wrapped in single quotes, written \x27). -/
def pyRepr : JValue → String
  | jNull => "None"
  | jBool true => "True"
  | jBool false => "False"
  | jInt n => toString n
  | jRat q => ratRepr q
  | jStr s => "\x27" ++ s ++ "\x27"
  | jArr elems => "[" ++ String.intercalate ", " (pyReprList elems) ++ "]"
  | jObj fields =>
      "\x7b" ++ String.intercalate ", " (pyReprFields fields) ++ "\x7d"

/-- `repr` of each element of a JSON array, in order. -/
def pyReprList : List JValue → List String
  | [] => []
  | v :: vs => pyRepr v :: pyReprList vs

/-- `repr` of each key/value pair of a JSON object, in order. -/
def pyReprFields : List (String × JValue) → List String
  | [] => []
  | (k, v) :: fs => ("\x27" ++ k ++ "\x27: " ++ pyRepr v) :: pyReprFields fs

end

/-- Python `str()` of a parsed-JSON value: a string is itself, anything
else is its `repr`.  This is also what an f-string interpolation does. -/
def pyStr : JValue → String
  | jStr s => s
  | v => pyRepr v

/-- `d.get(key, default)` on a Python value: succeeds on a `dict`
(first binding wins; the JSON bodies of interest have unique keys),
raises `AttributeError` on any other type. -/
def dictGet (v : JValue) (key : String) (default : JValue) :
    Except String JValue :=
  match v with
  | jObj fields => .ok ((fields.lookup key).getD default)
  | _ => .error "AttributeError: value has no attribute get"

end JValue

/-! ## UploadWorker (src/main.py lines 112-149) -/

/-- One of the two Qt signals `UploadWorker` can emit. -/
inductive Signal where
  | finished (data : JValue) : Signal
  | error (msg : String) : Signal

/-- The HTTP response that `requests.post` returned for the upload.
`body = none` means the body is not valid JSON, so `response.json()`
raises; `body = some j` means it parses to `j`. -/
structure HttpResponse where
  status : Nat
  body : Option JValue

/-- The outcome of the `requests.post(...)` call itself. -/
inductive FetchResult where
  | ok (resp : HttpResponse) : FetchResult
  | connectionError : FetchResult
  | timeout : FetchResult
  | exn (detail : String) : FetchResult

/-- The environment one `UploadWorker.run` executes in: the result of
opening the file, the result of the network call (consulted only if the
open succeeded), and the `str()` of the decode exception raised by
`response.json()` when the body is not valid JSON. -/
structure WorkerEnv where
  openResult : Except String Unit
  fetch : FetchResult
  jsonErrDetail : String

/-- What one execution of `UploadWorker.run` did: the ordered trace of
emitted signals, and whether the network request was issued. -/
structure RunTrace where
  signals : List Signal
  networkCalled : Bool

/-- The mode string the worker opens the file with (`open(path, 'rb')`). -/
def fileOpenMode : String := "rb"

/-- `UploadWorker.run` (src/main.py lines 123-149), as a function from its
environment to the trace of emitted signals.  Every exception raised in
the `try` block other than `requests.exceptions.ConnectionError` and
`requests.exceptions.Timeout` reaches the final `except Exception` branch,
which emits `"Error: " ++ str(e)`. -/
def UploadWorker.run (env : WorkerEnv) : RunTrace :=
  match env.openResult with
  | .error detail => ⟨[.error ("Error: " ++ detail)], false⟩
  | .ok _ =>
    match env.fetch with
    | .connectionError =>
        ⟨[.error "Connection failed. Is the Django server running?"], true⟩
    | .timeout =>
        ⟨[.error "Request timed out. Please try again."], true⟩
    | .exn detail =>
        ⟨[.error ("Error: " ++ detail)], true⟩
    | .ok resp =>
      if resp.status = 201 then
        match resp.body with
        | some j => ⟨[.finished j], true⟩
        | none => ⟨[.error ("Error: " ++ env.jsonErrDetail)], true⟩
      else if resp.status = 401 then
        ⟨[.error "Authentication failed. Please check your credentials."],
          true⟩
      else
        match resp.body with
        | none => ⟨[.error ("Error: " ++ env.jsonErrDetail)], true⟩
        | some j =>
          match j.dictGet "error" (.jStr "Unknown error occurred") with
          | .error detail => ⟨[.error ("Error: " ++ detail)], true⟩
          | .ok errorMsg =>
              let errorMsg :=
                if errorMsg.isDict then .jStr errorMsg.pyStr else errorMsg
              ⟨[.error ("API Error: " ++ errorMsg.pyStr)], true⟩

/-- Count of `finished` signals in a trace. -/
def countFinished (sigs : List Signal) : Nat :=
  sigs.countP (fun s => match s with | .finished _ => true | _ => false)

/-- Count of `error` signals in a trace. -/
def countError (sigs : List Signal) : Nat :=
  sigs.countP (fun s => match s with | .error _ => true | _ => false)

/-! ## AuthDialog.authenticate (src/main.py lines 85-109) -/

/-- The login endpoint's HTTP response: its status, its raw body text
(`response.text`), its body as parsed JSON when valid (`response.json()`
raises when `body = none`, with `jsonErrDetail` the `str()` of that
exception). -/
structure AuthHttpResponse where
  status : Nat
  text : String
  body : Option JValue
  jsonErrDetail : String

/-- The outcome of the `requests.post` to the login endpoint:
either a response, or the `post` call itself raised. -/
inductive AuthNetOutcome where
  | ok (resp : AuthHttpResponse) : AuthNetOutcome
  | exn (excDetail : String) : AuthNetOutcome

/-- Observable behaviour of one `authenticate` call: how many network
requests were issued, the returned value (`None` or a token value), and
the message box shown, if any. -/
structure AuthResult where
  networkCalls : Nat
  returned : Option JValue
  warning : Option String

/-- Python truthiness of a string: `not s` holds exactly when `s` is
empty; a whitespace-only string is truthy. -/
def pyNonEmpty (s : String) : Bool := s ≠ ""

/-- `response.json().get('token')` on the 200 branch: `dict.get` with a
one-argument call defaults to `None`; on a non-dict body the attribute
access raises and control reaches the generic `except` handler. -/
def tokenOf (body : JValue) : Except String JValue :=
  body.dictGet "token" .jNull

/-- `AuthDialog.authenticate` (src/main.py lines 85-109).  The empty-field
check runs before any network activity; every exception inside the `try`
is caught by `except Exception` and shown as a connection error. -/
def AuthDialog.authenticate (username password : String)
    (net : AuthNetOutcome) : AuthResult :=
  if ¬ pyNonEmpty username ∨ ¬ pyNonEmpty password then
    ⟨0, none, some "Please enter username and password"⟩
  else
    match net with
    | .exn detail =>
        ⟨1, none, some ("Could not connect to server: " ++ detail)⟩
    | .ok resp =>
        if resp.status = 200 then
          match resp.body with
          | none =>
              ⟨1, none,
                some ("Could not connect to server: " ++ resp.jsonErrDetail)⟩
          | some body =>
            match tokenOf body with
            | .ok tok => ⟨1, some tok, none⟩
            | .error detail =>
                ⟨1, none, some ("Could not connect to server: " ++ detail)⟩
        else if resp.status = 400 then ⟨1, none, some "Invalid credentials"⟩
        else ⟨1, none, some ("Error: " ++ resp.text)⟩

/-! ## MatplotlibCanvas.plot_type_distribution (src/main.py lines 168-213) -/

/-- One rendered bar: its category (x position label), the raw count
value that sets its height, the fill color chosen from the palette, and
the annotation text drawn above it (`f-string` of the count). -/
structure Bar where
  category : String
  height : JValue
  color : String
  label : String

/-- The rendered chart surface: either the centered placeholder text
(no bars, no axis furniture) or a bar chart carrying its bars in order
together with the rotated x-tick labels. -/
inductive ChartSurface where
  | placeholder (msg : String) : ChartSurface
  | barChart (bars : List Bar) (xtickLabels : List String)
      (xlabel ylabel title : String) : ChartSurface

/-- The fixed color palette (src/main.py line 182). -/
def colorPalette : List String :=
  ["#63b3ed", "#68d391", "#ed8936", "#9f7aea", "#f56565", "#48bb78",
   "#f6ad55"]

/-- `item[key]` on a Python value: a missing key or a non-dict raises. -/
def itemGet (item : JValue) (key : String) : Except String JValue :=
  match item with
  | .jObj fields =>
      match fields.lookup key with
      | some v => .ok v
      | none => .error "KeyError"
  | _ => .error "TypeError: value is not subscriptable"

/-- Strings of a list of JSON values that are all strings; the chart's
category axis uses the raw `item['type']` values. -/
def asCategory (v : JValue) : String := v.pyStr

/-- `MatplotlibCanvas.plot_type_distribution` (src/main.py lines
168-213).  The axes are cleared first; an empty distribution draws only
the centered placeholder text and returns.  Otherwise one bar per item is
drawn, in list order, colored `colors[i % len(colors)]`, and each bar is
annotated with the f-string of its count.  A malformed item (missing
key / non-dict) raises, modelled as `.error`. -/
def plot_type_distribution (distribution : List JValue) :
    Except String ChartSurface :=
  if distribution.isEmpty then
    .ok (.placeholder "No data to display")
  else do
    let types ← distribution.mapM (fun item => itemGet item "type")
    let counts ← distribution.mapM (fun item => itemGet item "count")
    let typeLabels := types.map asCategory
    let barColors :=
      (List.range typeLabels.length).map
        (fun i => colorPalette.getD (i % colorPalette.length) "")
    let bars :=
      (typeLabels.zip (counts.zip barColors)).map
        (fun tcc => Bar.mk tcc.1 tcc.2.1 tcc.2.2 tcc.2.1.pyStr)
    .ok (.barChart bars typeLabels "Equipment Type" "Count"
          "Equipment Type Distribution")

/-! ## Number formatting (Python `f"{x:.2f}"`) -/

/-- `f"{x:.2f}"` on a number `x`: fixed-point with exactly two digits
after the decimal point, rounding ties to even as Python's float
formatting does (float values are modelled as rationals; the
negative-zero sign of float formatting is not modelled).  `100 * x` is
rounded half-even to the integer `n = sign, m` and printed as
`m / 100 "." m % 100`, entirely in integer arithmetic on the reduced
numerator and denominator. -/
def formatFixed2 (q : ℚ) : String :=
  let scaled : ℤ := 100 * q.num
  let den : ℤ := (q.den : ℤ)
  let f : ℤ := scaled.fdiv den
  let rem : ℤ := scaled - f * den
  let n : ℤ :=
    if 2 * rem < den then f
    else if den < 2 * rem then f + 1
    else if f % 2 = 0 then f else f + 1
  let m := n.natAbs
  (if n < 0 then "-" else "") ++ toString (m / 100) ++ "." ++
    (if m % 100 < 10 then "0" else "") ++ toString (m % 100)

/-- `f"{v:.2f}"` on a parsed-JSON value: ints and floats (and bools,
which Python treats as 0/1) format as fixed-point numbers; any other
type raises `TypeError`. -/
def pyFormatFixed2 : JValue → Except String String
  | .jInt n => .ok (formatFixed2 (n : ℚ))
  | .jRat q => .ok (formatFixed2 q)
  | .jBool true => .ok (formatFixed2 1)
  | .jBool false => .ok (formatFixed2 0)
  | _ => .error "TypeError: unsupported format string"

/-- Iterating a Python value as a sequence of chart items: JSON arrays
iterate over their elements; other non-sequence values are modelled as a
type error (no claim exercises them). -/
def asPyList : JValue → Except String (List JValue)
  | .jArr elems => .ok elems
  | _ => .error "TypeError: value is not iterable"

/-! ## MainWindow (src/main.py lines 223-587) -/

/-- The pieces of the main window the core operations read or write:
the four statistics value labels, the chart canvas, the upload button
(trigger control), the selected-file label, the status bar, and the
ordered list of message boxes shown. -/
structure UIState where
  totalText : String
  flowText : String
  pressText : String
  tempText : String
  chart : ChartSurface
  uploadBtnEnabled : Bool
  uploadBtnText : String
  fileLabelText : String
  fileLabelStyle : String
  statusMsg : String
  dialogs : List String

/-- The upload button's idle caption (src/main.py lines 334, 558, 583). -/
def uploadBtnIdleText : String := "📁 Select & Upload CSV File"

/-- The file label's success/selected stylesheet (green). -/
def fileLabelGreenStyle : String := "color: #68d391; font-size: 11px;"

/-- The file label's error stylesheet (red). -/
def fileLabelRedStyle : String := "color: #fc8181; font-size: 11px;"

/-- `MainWindow.on_upload_success` (src/main.py lines 555-578): re-enable
the trigger control, publish the four statistics read from
`summary_statistics` (missing fields defaulting to `0`), re-render the
chart from `type_distribution` (defaulting to the empty list), and update
the status bar.  A dynamic type error anywhere in the slot is modelled as
an overall `.error` (no claim inspects the partially-updated state). -/
def on_upload_success (data : JValue) (s : UIState) :
    Except String UIState := do
  let stats ← data.dictGet "summary_statistics" (.jObj [])
  let total ← stats.dictGet "total_count" (.jInt 0)
  let flow ← stats.dictGet "avg_flowrate" (.jInt 0)
  let press ← stats.dictGet "avg_pressure" (.jInt 0)
  let temp ← stats.dictGet "avg_temperature" (.jInt 0)
  let flowTxt ← pyFormatFixed2 flow
  let pressTxt ← pyFormatFixed2 press
  let tempTxt ← pyFormatFixed2 temp
  let distValue ← stats.dictGet "type_distribution" (.jArr [])
  let distribution ← asPyList distValue
  let chart ← plot_type_distribution distribution
  let fileId ← data.dictGet "file_id" (.jStr "N/A")
  .ok { s with
        uploadBtnEnabled := true
        uploadBtnText := uploadBtnIdleText
        totalText := total.pyStr
        flowText := flowTxt ++ " m³/h"
        pressText := pressTxt ++ " bar"
        tempText := tempTxt ++ " °C"
        chart := chart
        statusMsg := "✅ Success! Loaded " ++ total.pyStr ++
          " equipment records. File ID: " ++ fileId.pyStr
        fileLabelStyle := fileLabelGreenStyle }

/-- `MainWindow.on_upload_error` (src/main.py lines 580-587): re-enable
the trigger control, turn the file label red, show the message in the
status bar and in a critical message box.  No statistics label and not
the chart is touched. -/
def on_upload_error (errorMsg : String) (s : UIState) : UIState :=
  { s with
    uploadBtnEnabled := true
    uploadBtnText := uploadBtnIdleText
    fileLabelStyle := fileLabelRedStyle
    statusMsg := "❌ Error: " ++ errorMsg
    dialogs := s.dialogs ++ [errorMsg] }

/-- Python truthiness of `self.token`: `None` and the empty string are
falsy. -/
def pyTruthyOpt : Option String → Bool
  | none => false
  | some s => s ≠ ""

/-- `file_path.split('/')[-1].split('\\')[-1]`: the base file name. -/
def pyBasename (p : String) : String :=
  let afterSlash := (p.splitOn "/").getLastD p
  (afterSlash.splitOn "\\").getLastD afterSlash

/-- The controller-level state of the main window: the session token,
the number of background upload workers started and not yet finished,
the most recently constructed worker (`self.worker`: its captured file
path and token snapshot), and the visible UI state. -/
structure AppState where
  token : Option String
  running : Nat
  worker : Option (String × String)
  ui : UIState

/-- `MainWindow.show_auth_dialog` (src/main.py lines 513-522), with the
dialog's outcome supplied by the environment: `some t` means the dialog
was accepted with `dialog.token = t`, `none` means it was rejected. -/
def show_auth_dialog (outcome : Option String) (s : AppState) : AppState :=
  match outcome with
  | none => s
  | some t =>
      if pyTruthyOpt (some t) then
        { s with token := some t,
                 ui := { s.ui with statusMsg := "Authenticated successfully" } }
      else
        { s with token := some t,
                 ui := { s.ui with dialogs := s.ui.dialogs ++
                   ["Credentials are required to upload files."] } }

/-- `MainWindow.upload_file` (src/main.py lines 524-553), with the two
external collaborator results supplied by the environment: the auth
dialog's outcome (consulted only when no truthy token is held) and the
file chooser's result (`""` when cancelled).  If a token and a file are
available it updates the UI and unconditionally constructs and starts a
new `UploadWorker` — there is no check of whether one is already
running. -/
def upload_file (authOutcome : Option String) (chosenFile : String)
    (s : AppState) : AppState :=
  let s1 := if pyTruthyOpt s.token then s else show_auth_dialog authOutcome s
  if ¬ pyTruthyOpt s1.token then s1
  else if ¬ pyNonEmpty chosenFile then s1
  else
    let filename := pyBasename chosenFile
    { s1 with
      ui := { s1.ui with
              fileLabelText := "Selected: " ++ filename
              fileLabelStyle := fileLabelGreenStyle
              uploadBtnEnabled := false
              uploadBtnText := "⏳ Uploading..."
              statusMsg := "Uploading file to API..." }
      worker := some (chosenFile, s1.token.getD "")
      running := s1.running + 1 }

/-! ## Shared sample states -/

/-- `MainWindow.clear_plot` (src/main.py lines 215-220): the canvas as
the constructor leaves it. -/
def clear_plot : ChartSurface :=
  .placeholder "Upload a CSV file to view chart"

/-- The UI as `MainWindow.setup_ui` constructs it. -/
def initialUI : UIState where
  totalText := "—"
  flowText := "—"
  pressText := "—"
  tempText := "—"
  chart := clear_plot
  uploadBtnEnabled := true
  uploadBtnText := uploadBtnIdleText
  fileLabelText := "No file selected"
  fileLabelStyle := "color: #718096; font-size: 11px;"
  statusMsg := "Ready - Please upload a CSV file"
  dialogs := []

/-! ## Theorems -/

/-- A main-window state in which one upload is in flight: a worker has
been started (`running = 1`) and the trigger control is disabled. -/
def busyApp : AppState where
  token := some "tok"
  running := 1
  worker := some ("/data/first.csv", "tok")
  ui :=
    { initialUI with
      uploadBtnEnabled := false
      uploadBtnText := "⏳ Uploading..." }

/-- C1: `MainWindow.upload_file` has no busy-state guard.  In a state
where one `UploadWorker` is already running (the button shows
"Uploading..."), a further `upload_file` call with a truthy token and a
chosen file constructs and starts a second worker: `running` goes from 1
to 2, refuting the claim that the call is rejected or ignored with Busy
and that at most one UploadTask is ever outstanding. -/
theorem upload_file_no_busy_guard :
    (upload_file none "/data/second.csv" busyApp).running = 2 ∧
    (upload_file none "/data/second.csv" busyApp).worker =
      some ("/data/second.csv", "tok") := ⟨rfl, rfl⟩

/-- Every execution of `UploadWorker.run` emits a single signal. -/
theorem uploadWorker_run_singleton (env : WorkerEnv) :
    ∃ sig, (UploadWorker.run env).signals = [sig] := by
  obtain ⟨o, f, jd⟩ := env
  cases o with
  | error d => exact ⟨_, rfl⟩
  | ok u =>
    cases f with
    | connectionError => exact ⟨_, rfl⟩
    | timeout => exact ⟨_, rfl⟩
    | exn d => exact ⟨_, rfl⟩
    | ok resp =>
      obtain ⟨st, body⟩ := resp
      by_cases h1 : st = 201
      · subst h1
        cases body <;> exact ⟨_, rfl⟩
      · by_cases h2 : st = 401
        · subst h2
          simp [UploadWorker.run, h1]
        · cases body with
          | none => simp [UploadWorker.run, h1, h2]
          | some j =>
            cases hj : j.dictGet "error" (.jStr "Unknown error occurred") with
            | error d => simp [UploadWorker.run, h1, h2, hj]
            | ok em => simp [UploadWorker.run, h1, h2, hj]

/-- A single signal is one `finished` or one `error`. -/
theorem countFinished_add_countError_singleton (sig : Signal) :
    countFinished [sig] + countError [sig] = 1 := by
  cases sig <;> simp [countFinished, countError]

/-- C2: every execution of `UploadWorker.run` to completion emits exactly
one signal, and that signal is `finished` or `error` — never zero
signals, never both kinds. -/
theorem uploadWorker_exactly_one_outcome (env : WorkerEnv) :
    (UploadWorker.run env).signals.length = 1 ∧
    countFinished (UploadWorker.run env).signals +
      countError (UploadWorker.run env).signals = 1 := by
  obtain ⟨sig, hs⟩ := uploadWorker_run_singleton env
  rw [hs]
  exact ⟨rfl, countFinished_add_countError_singleton sig⟩

/-- C4 (counterexample): the claim says whitespace-only credentials are
rejected locally without a network call, but `if not username or not
password` only catches empty strings: with username `" "` the code
issues the login request (one network call) and even returns the token
the server supplies. -/
theorem authenticate_whitespace_hits_network :
    (AuthDialog.authenticate " " "pw"
      (.ok ⟨200, "", some (.jObj [("token", .jStr "abc")]), ""⟩)).networkCalls
        = 1 ∧
    (AuthDialog.authenticate " " "pw"
      (.ok ⟨200, "", some (.jObj [("token", .jStr "abc")]), ""⟩)).returned
        = some (.jStr "abc") := ⟨rfl, rfl⟩

/-- C4 (amended): for every username/password pair in which either field
is the empty string, `authenticate` fails locally — it shows the
missing-input warning, returns `None`, and issues no network call. -/
theorem authenticate_empty_rejected_locally (username password : String)
    (net : AuthNetOutcome) (h : username = "" ∨ password = "") :
    AuthDialog.authenticate username password net =
      ⟨0, none, some "Please enter username and password"⟩ := by
  unfold AuthDialog.authenticate
  rcases h with h | h <;> subst h <;> simp [pyNonEmpty]

/-- Witness for the amended C4 at a concrete input. -/
theorem authenticate_empty_rejected_locally_witness :
    AuthDialog.authenticate "" "pw" (.exn "unused") =
      ⟨0, none, some "Please enter username and password"⟩ :=
  authenticate_empty_rejected_locally "" "pw" (.exn "unused") (Or.inl rfl)

/-- C5 (counterexample): a failed file open is not given a distinct
LocalIO classification: it lands in the generic `except Exception`
branch, so its emitted signal is identical to the one an unknown
exception with the same detail produces. -/
theorem open_failure_same_signal_as_unknown :
    (UploadWorker.run
      ⟨.error "No such file or directory", .timeout, ""⟩).signals =
    (UploadWorker.run
      ⟨.ok (), .exn "No such file or directory", ""⟩).signals := rfl

/-- C5 (amended): when the file cannot be opened the worker emits the
generic exception message `"Error: " ++ detail` (the same branch that
handles unknown exceptions) and never issues the network request; the
file is opened in binary mode (`'rb'`). -/
theorem open_failure_generic_error_no_network (detail : String)
    (f : FetchResult) (jd : String) :
    UploadWorker.run ⟨.error detail, f, jd⟩ =
      ⟨[.error ("Error: " ++ detail)], false⟩ ∧
    fileOpenMode = "rb" := ⟨rfl, rfl⟩

/-- C6: `on_upload_error` leaves every previously displayed statistic —
the total, the three averages, and the rendered chart — and the selected
file name unchanged; it modifies exactly the trigger control (re-enabled,
idle caption), the file label color, the status text, and the error
dialog surface. -/
theorem on_upload_error_preserves_statistics (msg : String) (s : UIState) :
    (on_upload_error msg s).totalText = s.totalText ∧
    (on_upload_error msg s).flowText = s.flowText ∧
    (on_upload_error msg s).pressText = s.pressText ∧
    (on_upload_error msg s).tempText = s.tempText ∧
    (on_upload_error msg s).chart = s.chart ∧
    (on_upload_error msg s).fileLabelText = s.fileLabelText ∧
    (on_upload_error msg s).uploadBtnEnabled = true ∧
    (on_upload_error msg s).uploadBtnText = uploadBtnIdleText ∧
    (on_upload_error msg s).fileLabelStyle = fileLabelRedStyle ∧
    (on_upload_error msg s).statusMsg = "❌ Error: " ++ msg ∧
    (on_upload_error msg s).dialogs = s.dialogs ++ [msg] := by
  refine ⟨rfl, rfl, rfl, rfl, rfl, rfl, rfl, rfl, rfl, rfl, rfl⟩

/-- C9: the empty distribution renders only the centered placeholder
message — the `barChart` constructor (and with it any bar or axis
furniture) is never produced. -/
theorem plot_empty_placeholder :
    plot_type_distribution [] = .ok (.placeholder "No data to display") :=
  rfl

/-- C10: a response whose status is neither 201 nor 401 and whose body is
not valid JSON makes `response.json()` raise before the ApiError message
is built, so the generic exception branch emits `"Error: " ++ detail`
(not an `"API Error: ..."` message), and exactly one signal is still
emitted. -/
theorem invalid_json_other_status_generic_error (status : Nat)
    (jd : String) (h1 : status ≠ 201) (h2 : status ≠ 401) :
    (UploadWorker.run ⟨.ok (), .ok ⟨status, none⟩, jd⟩).signals =
      [.error ("Error: " ++ jd)] ∧
    countError
      (UploadWorker.run ⟨.ok (), .ok ⟨status, none⟩, jd⟩).signals = 1 := by
  refine ⟨?_, ?_⟩ <;>
    simp [UploadWorker.run, h1, h2, countFinished, countError]

/-- Witness for C10 at a concrete input: status 500 with an unparseable
body. -/
theorem invalid_json_other_status_generic_error_witness :
    (UploadWorker.run
      ⟨.ok (), .ok ⟨500, none⟩, "Expecting value: line 1"⟩).signals =
      [.error "Error: Expecting value: line 1"] ∧
    countError
      (UploadWorker.run
        ⟨.ok (), .ok ⟨500, none⟩, "Expecting value: line 1"⟩).signals = 1 :=
  invalid_json_other_status_generic_error 500 "Expecting value: line 1"
    (by decide) (by decide)

/-- C3: the upload worker's response mapping.  With the file opened
successfully: a 201 response with parsed body `j` emits `finished j`
(Success); a 401 response emits the Unauthorized message; any other
status with a JSON-object body whose `error` field holds `errVal` emits
`"API Error: "` followed by `errVal` stringified (for a structured
object, its `str()`); a connection failure, a timeout, and any other
exception emit their respective classified messages. -/
theorem upload_response_mapping (status : Nat) (j : JValue)
    (body401 : Option JValue) (fields : List (String × JValue))
    (errVal : JValue) (jd d : String) :
    (UploadWorker.run ⟨.ok (), .ok ⟨201, some j⟩, jd⟩).signals =
      [.finished j] ∧
    (UploadWorker.run ⟨.ok (), .ok ⟨401, body401⟩, jd⟩).signals =
      [.error "Authentication failed. Please check your credentials."] ∧
    (status ≠ 201 → status ≠ 401 → fields.lookup "error" = some errVal →
      (UploadWorker.run
          ⟨.ok (), .ok ⟨status, some (.jObj fields)⟩, jd⟩).signals =
        [.error ("API Error: " ++ errVal.pyStr)]) ∧
    (UploadWorker.run ⟨.ok (), .connectionError, jd⟩).signals =
      [.error "Connection failed. Is the Django server running?"] ∧
    (UploadWorker.run ⟨.ok (), .timeout, jd⟩).signals =
      [.error "Request timed out. Please try again."] ∧
    (UploadWorker.run ⟨.ok (), .exn d, jd⟩).signals =
      [.error ("Error: " ++ d)] := by
  refine ⟨rfl, rfl, ?_, rfl, rfl, rfl⟩
  intro h1 h2 hl
  have hget : JValue.dictGet (.jObj fields) "error"
      (.jStr "Unknown error occurred") = .ok errVal := by
    simp [JValue.dictGet, hl]
  simp only [UploadWorker.run, h1, h2, hget, if_false, if_neg h1, if_neg h2]
  cases errVal <;> simp [JValue.isDict, JValue.pyStr]

/-- Witness for C3: a 500 response whose body's `error` field is a
structured object is reported as `API Error:` followed by the `str()` of
that object. -/
theorem upload_response_mapping_witness :
    (UploadWorker.run
      ⟨.ok (),
        .ok ⟨500,
          some (.jObj [("error", .jObj [("detail", .jStr "bad file")])])⟩,
        "jd"⟩).signals =
      [.error ("API Error: \x7b\x27detail\x27: \x27bad file\x27\x7d")] := by
  have h := upload_response_mapping 500 .jNull none
    [("error", .jObj [("detail", .jStr "bad file")])]
    (.jObj [("detail", .jStr "bad file")]) "jd" "d"
  exact (h.2.2.1 (by decide) (by decide) rfl).trans (by rfl)

/-- A well-formed distribution entry as the server sends it:
`{"type": t, "count": c}`. -/
def distItem (p : String × Int) : JValue :=
  .jObj [("type", .jStr p.1), ("count", .jInt p.2)]

/-- The bar the chart is expected to draw for the entry at index `i`:
the entry's category, its count as the height, the palette color cycled
by index, and the literal count as the annotation text. -/
def barOf (ip : ℕ × (String × Int)) : Bar :=
  ⟨ip.2.1, .jInt ip.2.2,
   colorPalette.getD (ip.1 % colorPalette.length) "", toString ip.2.2⟩

/-- Extracting `item['type']` succeeds on every well-formed entry. -/
theorem mapM_distItem_type (d : List (String × Int)) :
    (d.map distItem).mapM (fun item => itemGet item "type") =
      .ok (d.map (fun p => JValue.jStr p.1)) := by
  induction d with
  | nil => rfl
  | cons p ps ih =>
    simp only [List.map_cons, List.mapM_cons, ih]
    rfl

/-- Extracting `item['count']` succeeds on every well-formed entry. -/
theorem mapM_distItem_count (d : List (String × Int)) :
    (d.map distItem).mapM (fun item => itemGet item "count") =
      .ok (d.map (fun p => JValue.jInt p.2)) := by
  induction d with
  | nil => rfl
  | cons p ps ih =>
    simp only [List.map_cons, List.mapM_cons, ih]
    rfl

/-- Bind on an `ok` value reduces to the continuation. -/
theorem exceptOkBind {ε α β : Type} (a : α) (f : α → Except ε β) :
    (Except.ok a : Except ε α) >>= f = f a := rfl

/-- The zip the renderer builds equals, bar by bar, the expected bars of
the entries enumerated from index `k` (generalized over the palette
offset so the induction goes through). -/
theorem zip_bars_enumFrom (d : List (String × Int)) (k : ℕ) :
    ((d.map Prod.fst).zip ((d.map (fun p => JValue.jInt p.2)).zip
        ((List.range d.length).map
          (fun i => colorPalette.getD ((i + k) % colorPalette.length)
            "")))).map
      (fun tcc => Bar.mk tcc.1 tcc.2.1 tcc.2.2 tcc.2.1.pyStr) =
    (d.enumFrom k).map barOf := by
  induction d generalizing k with
  | nil => rfl
  | cons p ps ih =>
    simp only [List.map_cons, List.length_cons, List.range_succ_eq_map,
      List.map_map, List.zip_cons_cons, List.enumFrom_cons]
    refine congrArg₂ List.cons ?_ ?_
    · simp [barOf, JValue.pyStr, JValue.pyRepr]
    · rw [← ih (k + 1)]
      have hfun :
          ((fun i =>
              colorPalette.getD ((i + k) % colorPalette.length) "") ∘
            Nat.succ) =
          (fun i =>
            colorPalette.getD ((i + (k + 1)) % colorPalette.length) "") := by
        funext i
        have h2 : i + 1 + k = i + (k + 1) := by omega
        simp [Function.comp, Nat.succ_eq_add_one, h2]
      rw [hfun]

/-- C8: on the well-formed non-empty distribution `p :: ps` the renderer
produces one bar per entry, in the order given — the bar at index `i`
carries the entry's category, its count as the height, the palette color
`colors[i % len(colors)]`, and the literal count as its annotation — and
the x-tick labels are the categories in order; the number of bars equals
the number of entries. -/
theorem plot_renders_one_bar_per_entry (p : String × Int)
    (ps : List (String × Int)) :
    plot_type_distribution ((p :: ps).map distItem) =
      .ok (.barChart ((p :: ps).enum.map barOf) ((p :: ps).map Prod.fst)
        "Equipment Type" "Count" "Equipment Type Distribution") ∧
    ((p :: ps).enum.map barOf).length = (p :: ps).length := by
  constructor
  · rw [show plot_type_distribution ((p :: ps).map distItem) =
        (((p :: ps).map distItem).mapM (fun item => itemGet item "type"))
          >>= (fun types =>
            (((p :: ps).map distItem).mapM
                (fun item => itemGet item "count")) >>= (fun counts =>
              Except.ok (.barChart
                (((types.map asCategory).zip (counts.zip
                    ((List.range (types.map asCategory).length).map
                      (fun i =>
                        colorPalette.getD (i % colorPalette.length)
                          "")))).map
                  (fun tcc =>
                    Bar.mk tcc.1 tcc.2.1 tcc.2.2 tcc.2.1.pyStr))
                (types.map asCategory) "Equipment Type" "Count"
                "Equipment Type Distribution"))) from rfl]
    rw [mapM_distItem_type, mapM_distItem_count, exceptOkBind, exceptOkBind]
    have hlabels :
        ((p :: ps).map (fun q => JValue.jStr q.1)).map asCategory =
          (p :: ps).map Prod.fst := by
      simp [List.map_map, Function.comp, asCategory, JValue.pyStr]
    rw [hlabels]
    rw [show ((p :: ps).map Prod.fst).length = (p :: ps).length from
      List.length_map _ _]
    rw [show (fun i => colorPalette.getD (i % colorPalette.length) "") =
          (fun i =>
            colorPalette.getD ((i + 0) % colorPalette.length) "") by
        funext i; rw [Nat.add_zero]]
    rw [zip_bars_enumFrom (p :: ps) 0]
    rfl
  · simp

/-- C7: the success handler reads `summary_statistics`, publishes the
total as its decimal string, each average formatted to two decimal
places with its physical unit (m³/h, bar, °C), hands `type_distribution`
to the chart renderer, re-enables the trigger control and reports the
file id in the status bar (first conjunct); when `summary_statistics`
is missing entirely every numeric field defaults to 0, the distribution
defaults to the empty sequence (rendered as the no-data placeholder) and
the file id defaults to N/A (second conjunct). -/
theorem on_upload_success_publishes (total : Int) (flow press temp : ℚ)
    (dist : List JValue) (fileId : String) (chart : ChartSurface)
    (s : UIState)
    (hplot : plot_type_distribution dist = .ok chart) :
    (on_upload_success
      (.jObj [("file_id", .jStr fileId),
        ("summary_statistics", .jObj
          [("total_count", .jInt total),
           ("avg_flowrate", .jRat flow),
           ("avg_pressure", .jRat press),
           ("avg_temperature", .jRat temp),
           ("type_distribution", .jArr dist)])]) s =
      .ok { s with
            uploadBtnEnabled := true
            uploadBtnText := uploadBtnIdleText
            totalText := toString total
            flowText := formatFixed2 flow ++ " m³/h"
            pressText := formatFixed2 press ++ " bar"
            tempText := formatFixed2 temp ++ " °C"
            chart := chart
            statusMsg := "✅ Success! Loaded " ++ toString total ++
              " equipment records. File ID: " ++ fileId
            fileLabelStyle := fileLabelGreenStyle }) ∧
    on_upload_success (.jObj []) s =
      .ok { s with
            uploadBtnEnabled := true
            uploadBtnText := uploadBtnIdleText
            totalText := "0"
            flowText := "0.00 m³/h"
            pressText := "0.00 bar"
            tempText := "0.00 °C"
            chart := .placeholder "No data to display"
            statusMsg :=
              "✅ Success! Loaded 0 equipment records. File ID: N/A"
            fileLabelStyle := fileLabelGreenStyle } := by
  constructor
  · rw [show (on_upload_success
        (.jObj [("file_id", .jStr fileId),
          ("summary_statistics", .jObj
            [("total_count", .jInt total),
             ("avg_flowrate", .jRat flow),
             ("avg_pressure", .jRat press),
             ("avg_temperature", .jRat temp),
             ("type_distribution", .jArr dist)])]) s) =
        (plot_type_distribution dist) >>= (fun chart => .ok { s with
            uploadBtnEnabled := true
            uploadBtnText := uploadBtnIdleText
            totalText := toString total
            flowText := formatFixed2 flow ++ " m³/h"
            pressText := formatFixed2 press ++ " bar"
            tempText := formatFixed2 temp ++ " °C"
            chart := chart
            statusMsg := "✅ Success! Loaded " ++ toString total ++
              " equipment records. File ID: " ++ fileId
            fileLabelStyle := fileLabelGreenStyle }) from rfl]
    rw [hplot, exceptOkBind]
  · rfl

/-- Witness for C7 at Scenario B: total 3, avg flowrate 12.5 displayed
as `"12.50 m³/h"`, two bars in the chart. -/
theorem on_upload_success_publishes_witness :
    on_upload_success
      (.jObj [("file_id", .jStr "f1"),
        ("summary_statistics", .jObj
          [("total_count", .jInt 3),
           ("avg_flowrate", .jRat (mkRat 25 2)),
           ("avg_pressure", .jRat (mkRat 6 5)),
           ("avg_temperature", .jRat (mkRat 25 1)),
           ("type_distribution", .jArr
             [.jObj [("type", .jStr "Pump"), ("count", .jInt 2)],
              .jObj [("type", .jStr "Valve"), ("count", .jInt 1)]])])])
      initialUI =
      .ok { initialUI with
            uploadBtnEnabled := true
            uploadBtnText := uploadBtnIdleText
            totalText := "3"
            flowText := "12.50 m³/h"
            pressText := "1.20 bar"
            tempText := "25.00 °C"
            chart := .barChart
              [⟨"Pump", .jInt 2, "#63b3ed", "2"⟩,
               ⟨"Valve", .jInt 1, "#68d391", "1"⟩]
              ["Pump", "Valve"] "Equipment Type" "Count"
              "Equipment Type Distribution"
            statusMsg :=
              "✅ Success! Loaded 3 equipment records. File ID: f1"
            fileLabelStyle := fileLabelGreenStyle } := by
  have h := (on_upload_success_publishes 3 (mkRat 25 2) (mkRat 6 5)
    (mkRat 25 1)
    [.jObj [("type", .jStr "Pump"), ("count", .jInt 2)],
     .jObj [("type", .jStr "Valve"), ("count", .jInt 1)]]
    "f1"
    (.barChart
      [⟨"Pump", .jInt 2, "#63b3ed", "2"⟩,
       ⟨"Valve", .jInt 1, "#68d391", "1"⟩]
      ["Pump", "Valve"] "Equipment Type" "Count"
      "Equipment Type Distribution")
    initialUI rfl).1
  exact h.trans (by rfl)
